import Mathlib

/-!
Verification of the pyTime share-code directory, virtual-filesystem listing
and batch-transfer core, as a shallow embedding of the Python sources.

Embedding conventions:
- The JSON `CodeDirectory` document (a Python dict from code strings to
  entry dicts, stored at `_system/codes.json`) is an association list
  `CodeDoc` with Python-dict operations `dictGet` (`d.get(k)`),
  `dictInsert` (`d[k] = v`) and `dictPop` (`d.pop(k, None)`).
- Timestamps are natural numbers (seconds); `datetime.now()` becomes an
  explicit `now` argument, `timedelta(hours=h)` becomes `3600 * h`, and the
  ISO-8601 round trip `fromisoformat (isoformat t) = t` is implicit.
- `str.upper()` / `str.lower()` become `pyUpper` / `pyLower`, mapping
  `Char.toUpper` / `Char.toLower` over the characters (exact on the ASCII
  range, which covers the code alphabet `[A-Z0-9]`).
- The randomness of `random.choices(_CODE_CHARS, k=6)` is an explicit list
  of draws, each draw being six indices into the 36-character alphabet;
  the retry loop of `_unique_code` consumes the list and returns `none`
  if it runs out (the real loop would keep drawing).
- Stateful S3 access is explicit: `ReadOutcome` is the response of
  `get_object` on the codes document (a parsed body or a `ClientError`
  code), and each operation returns the body it passes to `put_object`
  (if any) alongside its result, with `Except` for propagated errors.
-/

namespace PyTime

/-- One entry of the CodeDirectory document: the dict
`{"path": ..., "created_at": ..., "expires_at": ...?}` built by
`S3CodeProvider.generate_code` (src/sharing/s3_code_provider.py). -/
structure CodeEntry where
  path : String
  created_at : Nat
  expires_at : Option Nat
deriving Repr, DecidableEq

/-- The CodeDirectory document: the JSON object at `_system/codes.json`,
a Python dict from code strings to entries, as an association list in
insertion order. -/
abbrev CodeDoc := List (String × CodeEntry)

/-- Python `d.get(k)`: the value at the first (in a real dict: only)
occurrence of key `k`, if any. -/
def dictGet (k : String) : CodeDoc → Option CodeEntry
  | [] => none
  | (k', v) :: rest => if k' = k then some v else dictGet k rest

/-- Python `d[k] = v`: replace in place if the key exists, else append. -/
def dictInsert (k : String) (v : CodeEntry) : CodeDoc → CodeDoc
  | [] => [(k, v)]
  | (k', v') :: rest =>
    if k' = k then (k, v) :: rest else (k', v') :: dictInsert k v rest

/-- Python `d.pop(k, None)` (result discarded): remove the entry with key
`k`, if any. -/
def dictPop (k : String) : CodeDoc → CodeDoc
  | [] => []
  | (k', v') :: rest => if k' = k then rest else (k', v') :: dictPop k rest

/-- Python `s.strip()`: drop leading and trailing whitespace. -/
def pyStrip (s : String) : String :=
  String.mk
    (((s.data.dropWhile Char.isWhitespace).reverse.dropWhile Char.isWhitespace).reverse)

/-- Python `s.upper()`, character-wise (exact on ASCII). -/
def pyUpper (s : String) : String := String.mk (s.data.map Char.toUpper)

/-- Python `s.lower()`, character-wise (exact on ASCII). -/
def pyLower (s : String) : String := String.mk (s.data.map Char.toLower)

/-- The code alphabet `_CODE_CHARS = string.ascii_uppercase + string.digits`
(src/sharing/s3_code_provider.py). -/
def codeAlphabet : List Char :=
  ['A', 'B', 'C', 'D', 'E', 'F', 'G', 'H', 'I', 'J', 'K', 'L', 'M',
   'N', 'O', 'P', 'Q', 'R', 'S', 'T', 'U', 'V', 'W', 'X', 'Y', 'Z',
   '0', '1', '2', '3', '4', '5', '6', '7', '8', '9']

/-- Pick one alphabet character by index. -/
def codeChar (i : Fin 36) : Char := codeAlphabet.get (Fin.cast (by rfl) i)

/-- One call of `random.choices(_CODE_CHARS, k=6)`: six uniform picks from
the 36-character alphabet. -/
def Draw : Type := { l : List (Fin 36) // l.length = 6 }

/-- The string `"".join(random.choices(_CODE_CHARS, k=6))` built from one
draw. -/
def codeString (d : Draw) : String := String.mk (d.val.map codeChar)

/-- The loop of `_unique_code(existing)`: draw codes until one is not a key
of `existing`; `draws` is the explicit randomness, `none` means the supply
ran out (the real loop would keep drawing). -/
def unique_code (existing : CodeDoc) : List Draw → Option String
  | [] => none
  | d :: rest =>
    let code := codeString d
    if dictGet code existing = none then some code else unique_code existing rest

/-- The response of `get_object(Bucket, Key=_CODES_KEY)` as observed by
`_read_codes`: either a parsed JSON body or a `ClientError` carrying an
error code string. -/
inductive ReadOutcome where
  | body (doc : CodeDoc)
  | clientError (code : String)

/-- `S3CodeProvider._read_codes`: parse the body; on a `ClientError` whose
code is `NoSuchKey` or `404` return the empty mapping; re-raise any other
`ClientError`. -/
def read_codes : ReadOutcome → Except String CodeDoc
  | .body doc => .ok doc
  | .clientError e =>
    if e = "NoSuchKey" ∨ e = "404" then .ok [] else .error e

/-- `S3CodeProvider.generate_code(path, expires_hours)`: read the document,
find a fresh code, build the entry (with `expires_at = now + 3600 * h` when
hours are given), insert it, write the document back. Returns the code with
the body written by `_write_codes`; `.ok none` means the draw supply ran
out before a fresh code appeared. -/
def generate_code (env : ReadOutcome) (path : String)
    (expires_hours : Option Nat) (now : Nat) (draws : List Draw) :
    Except String (Option (String × CodeDoc)) :=
  match read_codes env with
  | .error e => .error e
  | .ok codes =>
    match unique_code codes draws with
    | none => .ok none
    | some code =>
      let entry : CodeEntry :=
        { path := path, created_at := now,
          expires_at := expires_hours.map (fun h => now + 3600 * h) }
      .ok (some (code, dictInsert code entry codes))

/-- `S3CodeProvider.resolve_code(code)`: read the document, look up
`code.upper()`; a missing entry or one with `expires_at` in the strict past
resolves to `none`. The second component is the body written back: always
`none`, because `resolve_code` never calls `_write_codes` (lazy expiry). -/
def resolve_code (env : ReadOutcome) (code : String) (now : Nat) :
    Except String (Option String × Option CodeDoc) :=
  match read_codes env with
  | .error e => .error e
  | .ok codes =>
    match dictGet (pyUpper code) codes with
    | none => .ok (none, none)
    | some entry =>
      match entry.expires_at with
      | some t => if now > t then .ok (none, none) else .ok (some entry.path, none)
      | none => .ok (some entry.path, none)

/-- `S3CodeProvider.revoke_code(code)`: read the document, pop
`code.upper()` if present, write the document back unconditionally. The
result is the body written by `_write_codes`. -/
def revoke_code (env : ReadOutcome) (code : String) :
    Except String CodeDoc :=
  match read_codes env with
  | .error e => .error e
  | .ok codes => .ok (dictPop (pyUpper code) codes)

/-- Outcome of the UI revoke flow `_revoke_share_code` (src/ui/share.py):
which exit path was taken, and the body written back when `revoke_code`
was reached. In the `resolveError`, `notFound` and `revokeError` outcomes
no write occurs, so the stored document is unchanged; in particular
`notFound` is reached without ever calling `revoke_code`. -/
inductive RevokeFlowOutcome where
  | resolveError (e : String)
  | notFound
  | revokeError (e : String)
  | revoked (written : CodeDoc)
deriving Repr, DecidableEq

/-- `_revoke_share_code(code_provider)`: uppercase the stripped input, call
`resolve_code`; on `None` print "not found" and return without revoking;
otherwise call `revoke_code` with the same code. Both reads see the same
store content `env` (single-writer model). -/
def revoke_share_flow (env : ReadOutcome) (rawInput : String) (now : Nat) :
    RevokeFlowOutcome :=
  let code := pyUpper (pyStrip rawInput)
  match resolve_code env code now with
  | .error e => .resolveError e
  | .ok (none, _) => .notFound
  | .ok (some _, _) =>
    match revoke_code env code with
    | .error e => .revokeError e
    | .ok written => .revoked written

/-- Outcome of `self.client.list_buckets()` as observed by
`S3Client.verify_connection` (src/storage/s3_client.py): success, a
`ClientError` with an error code, or a `NoCredentialsError`. -/
inductive ListBucketsOutcome where
  | success
  | clientError (code : String)
  | noCredentials

/-- `S3Client.verify_connection`: `True` on success; on a `ClientError`,
`True` exactly when the error code is `AccessDenied` or `403` (restricted
credentials are still valid); `False` on `NoCredentialsError`. Total on
the modelled outcomes, hence it never raises. -/
def verify_connection : ListBucketsOutcome → Bool
  | .success => true
  | .clientError e => e == "AccessDenied" || e == "403"
  | .noCredentials => false

/-- One object record of a listing page, as the dicts
`{"key": ..., "size": ..., "last_modified": ...}` consumed by the UI
(src/ui/browse.py, src/ui/download.py). -/
structure ObjRecord where
  key : String
  size : Nat
  last_modified : Nat
deriving Repr, DecidableEq

/-- One page of a paginated delimiter listing: the page's
`CommonPrefixes` (folder paths) and `Contents` (object records). -/
structure ListPage where
  commonPfx : List String
  contents : List ObjRecord
deriving Repr, DecidableEq

/-- Modelled from the spec: `S3Client.list_folder` is called from
src/ui/browse.py, src/ui/download.py and src/ui/share.py and exercised by
src/tests/test_browse.py, but its body is not under src/. Spec section 4.2:
accumulate the folder and file lists across all pages of a delimiter
listing, and filter out any file record whose key equals the queried
`pfx` verbatim (the zero-byte placeholder object). -/
def list_folder (pfx : String) (pages : List ListPage) :
    List String × List ObjRecord :=
  ((pages.map (fun p => p.commonPfx)).flatten,
   (pages.map (fun p => p.contents.filter (fun o => o.key ≠ pfx))).flatten)

/-- Result of a batch transfer loop: the `successes` counter and the
`failures` list of `(relative path, error message)` pairs. -/
structure BatchResult where
  succeeded : Nat
  failed : List (String × String)
deriving Repr, DecidableEq

/-- One iteration of the batch loop: attempt the transfer of one file;
on success increment the counter, on an exception append
`(relative path, str(e))` and continue. -/
def batchStep (attempt : String → Except String Unit)
    (acc : BatchResult) (rel : String) : BatchResult :=
  match attempt rel with
  | .ok _ => { acc with succeeded := acc.succeeded + 1 }
  | .error e => { acc with failed := acc.failed ++ [(rel, e)] }

/-- The common accumulation loop of `_upload_directory_flow`
(src/ui/upload.py, loop over `all_files`) and `_download_folder`
(src/ui/download.py, loop over `all_objects`): files are identified by
their relative paths, `attempt rel` is the outcome of the per-file
transfer call (`upload_file` / `download_file`). -/
def runBatch (files : List String) (attempt : String → Except String Unit) :
    BatchResult :=
  files.foldl (batchStep attempt) { succeeded := 0, failed := [] }

/-- The failure record produced by one loop iteration, if any: `(relative
path, str(e))` exactly when the attempt raised. -/
def failEntry (attempt : String → Except String Unit) (f : String) :
    Option (String × String) :=
  match attempt f with
  | .ok _ => none
  | .error e => some (f, e)

/-! Helper lemmas. -/

theorem char_toNat_ofNat {n : Nat} (h : Nat.isValidChar n) :
    (Char.ofNat n).toNat = n := by
  simp [Char.ofNat, h, Char.ofNatAux, Char.toNat, UInt32.toNat, BitVec.toNat_ofNatLt]

theorem char_toUpper_toUpper (c : Char) : c.toUpper.toUpper = c.toUpper := by
  by_cases h1 : c.toNat ≥ 97 ∧ c.toNat ≤ 122
  · have hv : Nat.isValidChar (c.toNat - 32) := Or.inl (by omega)
    have h2 := char_toNat_ofNat hv
    simp [Char.toUpper, h1, h2]
    intro h3 h4
    exact absurd h3 (by omega)
  · simp [Char.toUpper, h1]

theorem char_toUpper_toLower (c : Char) : c.toLower.toUpper = c.toUpper := by
  by_cases h1 : c.toNat ≥ 65 ∧ c.toNat ≤ 90
  · have hv : Nat.isValidChar (c.toNat + 32) := Or.inl (by omega)
    have h2 := char_toNat_ofNat hv
    simp [Char.toLower, Char.toUpper, h1, h2]
    rw [if_neg (by omega)]
  · simp [Char.toLower, h1]

theorem pyUpper_pyUpper (s : String) : pyUpper (pyUpper s) = pyUpper s := by
  have h : Char.toUpper ∘ Char.toUpper = Char.toUpper := funext char_toUpper_toUpper
  simp [pyUpper, List.map_map, h]

theorem pyUpper_pyLower (s : String) : pyUpper (pyLower s) = pyUpper s := by
  have h : Char.toUpper ∘ Char.toLower = Char.toUpper := funext char_toUpper_toLower
  simp [pyUpper, pyLower, List.map_map, h]

theorem dictGet_dictInsert_self (k : String) (v : CodeEntry) (d : CodeDoc) :
    dictGet k (dictInsert k v d) = some v := by
  induction d with
  | nil => simp [dictInsert, dictGet]
  | cons hd tl ih =>
    obtain ⟨k', v'⟩ := hd
    by_cases h : k' = k
    · simp [dictInsert, dictGet, h]
    · simp [dictInsert, dictGet, h, ih]

theorem dictGet_eq_none_of_notMem (k : String) (d : CodeDoc)
    (h : k ∉ d.map Prod.fst) : dictGet k d = none := by
  induction d with
  | nil => simp [dictGet]
  | cons hd tl ih =>
    obtain ⟨k', v'⟩ := hd
    simp only [List.map_cons, List.mem_cons] at h
    push_neg at h
    have h1 : ¬ k' = k := fun hk => h.1 hk.symm
    simp [dictGet, h1, ih h.2]

theorem dictPop_eq_of_none (k : String) (d : CodeDoc)
    (h : dictGet k d = none) : dictPop k d = d := by
  induction d with
  | nil => simp [dictPop]
  | cons hd tl ih =>
    obtain ⟨k', v'⟩ := hd
    by_cases hk : k' = k
    · simp [dictGet, hk] at h
    · simp only [dictGet, if_neg hk] at h
      simp [dictPop, hk, ih h]

theorem dictGet_dictPop_of_ne (k k' : String) (d : CodeDoc) (h : k' ≠ k) :
    dictGet k' (dictPop k d) = dictGet k' d := by
  induction d with
  | nil => simp [dictPop]
  | cons hd tl ih =>
    obtain ⟨k1, v1⟩ := hd
    by_cases hk : k1 = k
    · subst hk
      have h1 : ¬ k1 = k' := fun hh => h hh.symm
      simp [dictPop, dictGet, h1]
    · simp [dictPop, dictGet, hk, ih]

theorem dictGet_dictPop_self (k : String) (d : CodeDoc)
    (h : (d.map Prod.fst).Nodup) : dictGet k (dictPop k d) = none := by
  induction d with
  | nil => simp [dictPop, dictGet]
  | cons hd tl ih =>
    obtain ⟨k1, v1⟩ := hd
    simp only [List.map_cons, List.nodup_cons] at h
    by_cases hk : k1 = k
    · subst hk
      have hpop : dictPop k1 ((k1, v1) :: tl) = tl := by simp [dictPop]
      rw [hpop]
      exact dictGet_eq_none_of_notMem k1 tl h.1
    · simp [dictPop, dictGet, hk, ih h.2]

theorem codeChar_mem (i : Fin 36) : codeChar i ∈ codeAlphabet :=
  List.get_mem codeAlphabet i.1 i.2

theorem toUpper_codeChar : ∀ i : Fin 36, (codeChar i).toUpper = codeChar i := by
  decide

theorem codeString_length (d : Draw) : (codeString d).length = 6 := by
  show (d.val.map codeChar).length = 6
  simp [d.property]

theorem codeString_chars (d : Draw) :
    ∀ c ∈ (codeString d).data, c ∈ codeAlphabet := by
  intro c hc
  obtain ⟨i, _, rfl⟩ := List.mem_map.1 hc
  exact codeChar_mem i

theorem pyUpper_codeString (d : Draw) : pyUpper (codeString d) = codeString d := by
  show String.mk ((d.val.map codeChar).map Char.toUpper) = String.mk (d.val.map codeChar)
  rw [List.map_map]
  congr 1
  exact List.map_congr_left (fun i _ => toUpper_codeChar i)

theorem unique_code_spec (existing : CodeDoc) (draws : List Draw) (c : String)
    (h : unique_code existing draws = some c) :
    dictGet c existing = none ∧ ∃ d ∈ draws, c = codeString d := by
  induction draws with
  | nil => simp [unique_code] at h
  | cons d rest ih =>
    by_cases hc : dictGet (codeString d) existing = none
    · simp only [unique_code, if_pos hc, Option.some.injEq] at h
      subst h
      exact ⟨hc, d, List.mem_cons_self d rest, rfl⟩
    · simp only [unique_code, if_neg hc] at h
      obtain ⟨h1, d', hd', rfl⟩ := ih h
      exact ⟨h1, d', List.mem_cons_of_mem d hd', rfl⟩

theorem unique_code_collision (existing : CodeDoc) (d : Draw) (rest : List Draw)
    (h : dictGet (codeString d) existing ≠ none) :
    unique_code existing (d :: rest) = unique_code existing rest := by
  simp [unique_code, h]

/-! Claim theorems. -/

/-- C1: for any valid path `p`, calling `generate_code(p)` with no expiry
and then immediately calling `resolve_code` on the returned code yields
`p`, for every starting CodeDirectory document (and in fact at every later
instant, since the entry carries no expiry). -/
theorem generate_resolve_roundtrip (doc : CodeDoc) (p : String)
    (now now2 : Nat) (draws : List Draw) (code : String) (doc' : CodeDoc)
    (h : generate_code (.body doc) p none now draws = .ok (some (code, doc'))) :
    resolve_code (.body doc') code now2 = .ok (some p, none) := by
  simp only [generate_code, read_codes] at h
  cases hu : unique_code doc draws with
  | none =>
    rw [hu] at h
    exact absurd h (by simp)
  | some c0 =>
    rw [hu] at h
    simp only [Except.ok.injEq, Option.some.injEq, Prod.mk.injEq] at h
    obtain ⟨hc, hd⟩ := h
    subst hc
    subst hd
    obtain ⟨hfresh, d0, hd0, hcs⟩ := unique_code_spec doc draws c0 hu
    have hup : pyUpper c0 = c0 := by
      rw [hcs]
      exact pyUpper_codeString d0
    simp [resolve_code, read_codes, hup, dictGet_dictInsert_self]

/-- C1 witness: a concrete round trip through one draw on the empty
document. -/
theorem generate_resolve_roundtrip_witness :
    resolve_code
      (.body [("AAAAAA", { path := "alice/docs/", created_at := 0, expires_at := none })])
      "AAAAAA" 5 = .ok (some "alice/docs/", none) :=
  generate_resolve_roundtrip [] "alice/docs/" 0 5
    [⟨List.replicate 6 ⟨0, by omega⟩, rfl⟩]
    "AAAAAA"
    [("AAAAAA", { path := "alice/docs/", created_at := 0, expires_at := none })]
    (by rfl)

/-- C3: for a code generated with an expiry of `hrs` hours, `resolve_code`
returns the stored path at any instant `now2 ≤ expires_at` and returns
absent once `now2 > expires_at`; in both cases the second component of the
result (the body written back) is `none`: resolving never deletes the
entry from the stored document (lazy expiry only). -/
theorem resolve_code_expiry (doc : CodeDoc) (p : String)
    (hrs now : Nat) (draws : List Draw) (code : String) (doc' : CodeDoc)
    (now2 : Nat)
    (h : generate_code (.body doc) p (some hrs) now draws = .ok (some (code, doc'))) :
    (now2 ≤ now + 3600 * hrs →
      resolve_code (.body doc') code now2 = .ok (some p, none)) ∧
    (now + 3600 * hrs < now2 →
      resolve_code (.body doc') code now2 = .ok (none, none)) := by
  simp only [generate_code, read_codes] at h
  cases hu : unique_code doc draws with
  | none =>
    rw [hu] at h
    exact absurd h (by simp)
  | some c0 =>
    rw [hu] at h
    simp only [Except.ok.injEq, Option.some.injEq, Prod.mk.injEq] at h
    obtain ⟨hc, hd⟩ := h
    subst hc
    subst hd
    obtain ⟨hfresh, d0, hd0, hcs⟩ := unique_code_spec doc draws c0 hu
    have hup : pyUpper c0 = c0 := by
      rw [hcs]
      exact pyUpper_codeString d0
    constructor
    · intro hle
      simp [resolve_code, read_codes, hup, dictGet_dictInsert_self,
        Nat.not_lt.mpr hle]
    · intro hlt
      simp [resolve_code, read_codes, hup, dictGet_dictInsert_self, hlt]

/-- C3 witness: a code generated at time 0 with a 1-hour expiry resolves
to the path at 3600 and to absent at 3601. -/
theorem resolve_code_expiry_witness :
    resolve_code
      (.body [("AAAAAA", { path := "alice/docs/", created_at := 0, expires_at := some 3600 })])
      "AAAAAA" 3600 = .ok (some "alice/docs/", none) ∧
    resolve_code
      (.body [("AAAAAA", { path := "alice/docs/", created_at := 0, expires_at := some 3600 })])
      "AAAAAA" 3601 = .ok (none, none) := by
  have h1 := resolve_code_expiry [] "alice/docs/" 1 0
    [⟨List.replicate 6 ⟨0, by omega⟩, rfl⟩] "AAAAAA"
    [("AAAAAA", { path := "alice/docs/", created_at := 0, expires_at := some 3600 })]
    3600 (by rfl)
  have h2 := resolve_code_expiry [] "alice/docs/" 1 0
    [⟨List.replicate 6 ⟨0, by omega⟩, rfl⟩] "AAAAAA"
    [("AAAAAA", { path := "alice/docs/", created_at := 0, expires_at := some 3600 })]
    3601 (by rfl)
  exact ⟨h1.1 (by omega), h2.2 (by omega)⟩

/-- C4: `generate_code` never inserts a code that is already a key of the
document when it succeeds; the inserted code is exactly 6 characters over
`[A-Z0-9]`; and when a drawn code collides with an existing key the loop
of `_unique_code` moves on to the next draw. -/
theorem generate_code_unique_and_format :
    (∀ (doc : CodeDoc) (p : String) (eh : Option Nat) (now : Nat)
       (draws : List Draw) (code : String) (doc' : CodeDoc),
       generate_code (.body doc) p eh now draws = .ok (some (code, doc')) →
       dictGet code doc = none ∧ code.length = 6 ∧
         ∀ c ∈ code.data, c ∈ codeAlphabet) ∧
    (∀ (existing : CodeDoc) (d : Draw) (rest : List Draw),
       dictGet (codeString d) existing ≠ none →
       unique_code existing (d :: rest) = unique_code existing rest) := by
  constructor
  · intro doc p eh now draws code doc' h
    simp only [generate_code, read_codes] at h
    cases hu : unique_code doc draws with
    | none =>
      rw [hu] at h
      exact absurd h (by simp)
    | some c0 =>
      rw [hu] at h
      simp only [Except.ok.injEq, Option.some.injEq, Prod.mk.injEq] at h
      obtain ⟨hc, hd⟩ := h
      subst hc
      obtain ⟨hfresh, d0, hd0, hcs⟩ := unique_code_spec doc draws c0 hu
      subst hcs
      exact ⟨hfresh, codeString_length d0, codeString_chars d0⟩
  · exact unique_code_collision

/-- C4 witness: on a document already containing `AAAAAA`, the first draw
(`AAAAAA`) collides and a second draw (`BBBBBB`) is taken; the inserted
code is fresh, 6 characters long, over the alphabet. -/
theorem generate_code_unique_and_format_witness :
    (dictGet "BBBBBB"
      [("AAAAAA", { path := "alice/old/", created_at := 0, expires_at := none })] = none ∧
     ("BBBBBB" : String).length = 6 ∧
     ∀ c ∈ ("BBBBBB" : String).data, c ∈ codeAlphabet) ∧
    unique_code
      [("AAAAAA", { path := "alice/old/", created_at := 0, expires_at := none })]
      [⟨List.replicate 6 ⟨0, by omega⟩, rfl⟩, ⟨List.replicate 6 ⟨1, by omega⟩, rfl⟩]
      = unique_code
        [("AAAAAA", { path := "alice/old/", created_at := 0, expires_at := none })]
        [⟨List.replicate 6 ⟨1, by omega⟩, rfl⟩] := by
  constructor
  · exact generate_code_unique_and_format.1
      [("AAAAAA", { path := "alice/old/", created_at := 0, expires_at := none })]
      "alice/new/" none 7
      [⟨List.replicate 6 ⟨0, by omega⟩, rfl⟩, ⟨List.replicate 6 ⟨1, by omega⟩, rfl⟩]
      "BBBBBB"
      [("AAAAAA", { path := "alice/old/", created_at := 0, expires_at := none }),
       ("BBBBBB", { path := "alice/new/", created_at := 7, expires_at := none })]
      (by rfl)
  · exact generate_code_unique_and_format.2
      [("AAAAAA", { path := "alice/old/", created_at := 0, expires_at := none })]
      ⟨List.replicate 6 ⟨0, by omega⟩, rfl⟩
      [⟨List.replicate 6 ⟨1, by omega⟩, rfl⟩]
      (by decide)

/-- C6: `revoke_code` never raises on a successful read and writes the
document back unconditionally (the written body is `dictPop` of the
uppercased code); on an absent code the written document equals the
original, so every entry is untouched; on a present code exactly that
entry is removed (under the dict invariant that keys are unique) and
every other key resolves unchanged. -/
theorem revoke_code_frame (doc : CodeDoc) (code : String) :
    revoke_code (.body doc) code = .ok (dictPop (pyUpper code) doc) ∧
    (dictGet (pyUpper code) doc = none →
      revoke_code (.body doc) code = .ok doc) ∧
    (∀ k, k ≠ pyUpper code →
      dictGet k (dictPop (pyUpper code) doc) = dictGet k doc) ∧
    ((doc.map Prod.fst).Nodup →
      dictGet (pyUpper code) (dictPop (pyUpper code) doc) = none) := by
  refine ⟨rfl, ?_, ?_, ?_⟩
  · intro h
    simp [revoke_code, read_codes, dictPop_eq_of_none _ _ h]
  · intro k hk
    exact dictGet_dictPop_of_ne (pyUpper code) k doc hk
  · intro h
    exact dictGet_dictPop_self (pyUpper code) doc h

/-- C6 witness: revoking an unknown code leaves a one-entry document
intact; revoking `ABC123` from a two-entry document removes exactly it
and keeps the other key resolving as before. -/
theorem revoke_code_frame_witness :
    revoke_code
      (.body [("XYZ789", { path := "alice/pics/", created_at := 1, expires_at := none })])
      "QQQQQQ"
      = .ok [("XYZ789", { path := "alice/pics/", created_at := 1, expires_at := none })] ∧
    dictGet "XYZ789"
      (dictPop (pyUpper "ABC123")
        [("ABC123", { path := "alice/docs/", created_at := 0, expires_at := none }),
         ("XYZ789", { path := "alice/pics/", created_at := 1, expires_at := none })])
      = dictGet "XYZ789"
        [("ABC123", { path := "alice/docs/", created_at := 0, expires_at := none }),
         ("XYZ789", { path := "alice/pics/", created_at := 1, expires_at := none })] ∧
    dictGet (pyUpper "ABC123")
      (dictPop (pyUpper "ABC123")
        [("ABC123", { path := "alice/docs/", created_at := 0, expires_at := none }),
         ("XYZ789", { path := "alice/pics/", created_at := 1, expires_at := none })])
      = none := by
  refine ⟨?_, ?_, ?_⟩
  · exact (revoke_code_frame
      [("XYZ789", { path := "alice/pics/", created_at := 1, expires_at := none })]
      "QQQQQQ").2.1 (by decide)
  · exact (revoke_code_frame
      [("ABC123", { path := "alice/docs/", created_at := 0, expires_at := none }),
       ("XYZ789", { path := "alice/pics/", created_at := 1, expires_at := none })]
      "ABC123").2.2.1 "XYZ789" (by decide)
  · exact (revoke_code_frame
      [("ABC123", { path := "alice/docs/", created_at := 0, expires_at := none }),
       ("XYZ789", { path := "alice/pics/", created_at := 1, expires_at := none })]
      "ABC123").2.2.2 (by decide)

/-- C7: code lookup is case-insensitive: for every code string `c`, every
store response and every instant, resolving `c.lower()` equals resolving
`c.upper()` (both are looked up as `code.upper()`). -/
theorem resolve_code_case_insensitive (env : ReadOutcome) (c : String)
    (now : Nat) :
    resolve_code env (pyLower c) now = resolve_code env (pyUpper c) now := by
  simp only [resolve_code, pyUpper_pyLower, pyUpper_pyUpper]

/-- C8: when the CodeDirectory object is absent (a `ClientError` whose
code is `NoSuchKey` or `404` on the read), all three operations behave
exactly as on the empty mapping and raise no error; any other store error
on the read propagates to the caller unmodified. -/
theorem missing_document_as_empty (ec : String) :
    ((ec = "NoSuchKey" ∨ ec = "404") →
      (∀ p eh now draws,
        generate_code (.clientError ec) p eh now draws
          = generate_code (.body []) p eh now draws) ∧
      (∀ c now, resolve_code (.clientError ec) c now
          = resolve_code (.body []) c now) ∧
      (∀ c, revoke_code (.clientError ec) c = revoke_code (.body []) c)) ∧
    (ec ≠ "NoSuchKey" → ec ≠ "404" →
      (∀ p eh now draws,
        generate_code (.clientError ec) p eh now draws = .error ec) ∧
      (∀ c now, resolve_code (.clientError ec) c now = .error ec) ∧
      (∀ c, revoke_code (.clientError ec) c = .error ec)) := by
  constructor
  · intro h
    refine ⟨?_, ?_, ?_⟩
    · intro p eh now draws
      simp [generate_code, read_codes, h]
    · intro c now
      simp [resolve_code, read_codes, h]
    · intro c
      simp [revoke_code, read_codes, h]
  · intro h1 h2
    refine ⟨?_, ?_, ?_⟩
    · intro p eh now draws
      simp [generate_code, read_codes, h1, h2]
    · intro c now
      simp [resolve_code, read_codes, h1, h2]
    · intro c
      simp [revoke_code, read_codes, h1, h2]

/-- C8 witness: a `NoSuchKey` read behaves as the empty mapping for
`resolve_code`, and an `AccessDenied` read propagates verbatim from
`revoke_code` and `generate_code`. -/
theorem missing_document_as_empty_witness :
    resolve_code (.clientError "NoSuchKey") "ABC123" 0
      = resolve_code (.body []) "ABC123" 0 ∧
    revoke_code (.clientError "404") "ABC123"
      = revoke_code (.body []) "ABC123" ∧
    revoke_code (.clientError "AccessDenied") "ABC123" = .error "AccessDenied" ∧
    generate_code (.clientError "AccessDenied") "alice/docs/" none 0 [] = .error "AccessDenied" :=
  ⟨((missing_document_as_empty "NoSuchKey").1 (Or.inl rfl)).2.1 "ABC123" 0,
   ((missing_document_as_empty "404").1 (Or.inr rfl)).2.2 "ABC123",
   ((missing_document_as_empty "AccessDenied").2 (by decide) (by decide)).2.2 "ABC123",
   ((missing_document_as_empty "AccessDenied").2 (by decide) (by decide)).1 "alice/docs/" none 0 []⟩

/-- C9 (implicit): when the stored document still physically contains the
entry for the (stripped, uppercased) input code but that entry is expired
(`now > expires_at`), the UI revoke flow ends in `notFound`: it never
reaches `revoke_code`, performs no write, and therefore leaves the stored
document unchanged — an expired entry cannot be physically deleted through
the revoke flow. -/
theorem revoke_flow_expired_noop (doc : CodeDoc) (input : String)
    (entry : CodeEntry) (t now : Nat)
    (hget : dictGet (pyUpper (pyStrip input)) doc = some entry)
    (hexp : entry.expires_at = some t) (hnow : t < now) :
    revoke_share_flow (.body doc) input now = .notFound := by
  simp [revoke_share_flow, resolve_code, read_codes, pyUpper_pyUpper,
    hget, hexp, hnow]

/-- C9 witness: the document still holds `ABC123`, expired at 10; running
the flow at 11 with the raw input `" abc123 "` ends in `notFound`. -/
theorem revoke_flow_expired_noop_witness :
    revoke_share_flow
      (.body [("ABC123", { path := "alice/docs/", created_at := 0, expires_at := some 10 })])
      " abc123 " 11 = .notFound :=
  revoke_flow_expired_noop
    [("ABC123", { path := "alice/docs/", created_at := 0, expires_at := some 10 })]
    " abc123 "
    { path := "alice/docs/", created_at := 0, expires_at := some 10 }
    10 11 (by decide) rfl (by omega)

/-- C10 (implicit): `verify_connection` returns `true` when listing
buckets succeeds or fails with a `ClientError` whose code is
`AccessDenied` or `403`, and returns `false` on `NoCredentialsError` or a
`ClientError` with any other code; being a total function on the modelled
outcomes, it never raises. -/
theorem verify_connection_spec :
    verify_connection .success = true ∧
    verify_connection .noCredentials = false ∧
    (∀ ec, ec = "AccessDenied" ∨ ec = "403" →
      verify_connection (.clientError ec) = true) ∧
    (∀ ec, ec ≠ "AccessDenied" → ec ≠ "403" →
      verify_connection (.clientError ec) = false) := by
  refine ⟨rfl, rfl, ?_, ?_⟩
  · rintro ec (rfl | rfl) <;> rfl
  · intro ec h1 h2
    simp [verify_connection, h1, h2]

/-- C10 witness: restricted credentials (`AccessDenied`) verify as valid,
any other client error does not. -/
theorem verify_connection_spec_witness :
    verify_connection (.clientError "AccessDenied") = true ∧
    verify_connection (.clientError "SomeOtherError") = false :=
  ⟨verify_connection_spec.2.2.1 "AccessDenied" (Or.inl rfl),
   verify_connection_spec.2.2.2 "SomeOtherError" (by decide) (by decide)⟩

/-- C2: for every folder listing, no returned file entry has a key exactly
equal to the queried folder path: the zero-byte placeholder object whose
key equals the listed path verbatim is excluded from the file view. -/
theorem list_folder_excludes_placeholder (pfx : String)
    (pages : List ListPage) (o : ObjRecord)
    (ho : o ∈ (list_folder pfx pages).2) : o.key ≠ pfx := by
  simp only [list_folder, List.mem_flatten, List.mem_map] at ho
  obtain ⟨l, ⟨pg, hpg, rfl⟩, hol⟩ := ho
  have := List.of_mem_filter hol
  simpa using this

/-- C2 witness: a page carrying the placeholder object `alice/` and a real
file; the real file is in the listing, and its key differs from the
queried path. -/
theorem list_folder_excludes_placeholder_witness :
    ({ key := "alice/a.txt", size := 1, last_modified := 0 } : ObjRecord).key ≠ "alice/" :=
  list_folder_excludes_placeholder "alice/"
    [{ commonPfx := ["alice/docs/"],
       contents := [{ key := "alice/", size := 0, last_modified := 0 },
                    { key := "alice/a.txt", size := 1, last_modified := 0 }] }]
    { key := "alice/a.txt", size := 1, last_modified := 0 }
    (by decide)

theorem runBatch_go (attempt : String → Except String Unit)
    (files : List String) (acc : BatchResult) :
    files.foldl (batchStep attempt) acc
      = { succeeded := acc.succeeded + (files.filter (fun f => (attempt f).isOk)).length,
          failed := acc.failed ++ files.filterMap (failEntry attempt) } := by
  induction files generalizing acc with
  | nil => simp
  | cons f rest ih =>
    cases h : attempt f with
    | ok u =>
      rw [List.foldl_cons, ih]
      simp [batchStep, h, failEntry, List.filter_cons, BatchResult.mk.injEq,
        Except.isOk, Except.toBool]
      omega
    | error e =>
      rw [List.foldl_cons, ih]
      simp [batchStep, h, failEntry, List.filter_cons, BatchResult.mk.injEq,
        Except.isOk, Except.toBool]

theorem runBatch_eq (files : List String)
    (attempt : String → Except String Unit) :
    runBatch files attempt
      = { succeeded := (files.filter (fun f => (attempt f).isOk)).length,
          failed := files.filterMap (failEntry attempt) } := by
  simpa [runBatch] using
    runBatch_go attempt files { succeeded := 0, failed := [] }

theorem failed_fst (attempt : String → Except String Unit)
    (files : List String) :
    (files.filterMap (failEntry attempt)).map Prod.fst
      = files.filter (fun f => !(attempt f).isOk) := by
  induction files with
  | nil => rfl
  | cons f rest ih =>
    cases h : attempt f with
    | ok u =>
      simp [failEntry, h, List.filter_cons, ih, Except.isOk, Except.toBool]
    | error e =>
      simp [failEntry, h, List.filter_cons, ih, Except.isOk, Except.toBool]

theorem length_filter_ok_add (files : List String)
    (attempt : String → Except String Unit) :
    (files.filter (fun f => (attempt f).isOk)).length
      + (files.filter (fun f => !(attempt f).isOk)).length = files.length := by
  induction files with
  | nil => rfl
  | cons f rest ih =>
    cases h : (attempt f).isOk <;> simp [List.filter_cons, h] <;> omega

/-- C5: for every batch transfer loop over `N` enumerated files of which
`K` fail, a single file's failure does not abort the batch: every file is
attempted, the reported counts satisfy `succeeded = N - K` and `failed`
has exactly `K` entries summing to `N`, the failed relative paths are
exactly the failing files, and every enumerated relative path lands in
exactly one of the two outcome sets. -/
theorem batch_accounting (files : List String)
    (attempt : String → Except String Unit) :
    (runBatch files attempt).succeeded + (runBatch files attempt).failed.length
        = files.length ∧
    (runBatch files attempt).succeeded
        = files.length - (runBatch files attempt).failed.length ∧
    (runBatch files attempt).failed.length
        = (files.filter (fun f => !(attempt f).isOk)).length ∧
    (runBatch files attempt).failed.map Prod.fst
        = files.filter (fun f => !(attempt f).isOk) ∧
    (∀ f ∈ files,
      ((attempt f).isOk = true
        ↔ f ∉ (runBatch files attempt).failed.map Prod.fst)) := by
  have he := runBatch_eq files attempt
  have hfst : (runBatch files attempt).failed.map Prod.fst
      = files.filter (fun f => !(attempt f).isOk) := by
    rw [he]
    exact failed_fst attempt files
  have hflen : (runBatch files attempt).failed.length
      = (files.filter (fun f => !(attempt f).isOk)).length := by
    rw [← hfst, List.length_map]
  have hsum : (runBatch files attempt).succeeded
        + (runBatch files attempt).failed.length = files.length := by
    rw [hflen, he]
    simpa using length_filter_ok_add files attempt
  refine ⟨hsum, by omega, hflen, hfst, ?_⟩
  intro f hf
  rw [hfst]
  constructor
  · intro hok hmem
    have := (List.mem_filter.1 hmem).2
    simp [hok] at this
  · intro hmem
    by_contra hok
    exact hmem (List.mem_filter.2 ⟨hf, by simp [hok]⟩)

/-- C5 witness: three files of which the middle one fails: counts are
`2 + 1 = 3` and the failing path is reported in the failed set. -/
theorem batch_accounting_witness :
    (runBatch ["a.txt", "sub/b.txt", "c.txt"]
        (fun f => if f = "sub/b.txt" then .error "boom" else .ok ())).succeeded
      + (runBatch ["a.txt", "sub/b.txt", "c.txt"]
        (fun f => if f = "sub/b.txt" then .error "boom" else .ok ())).failed.length
      = 3 ∧
    "sub/b.txt" ∈ (runBatch ["a.txt", "sub/b.txt", "c.txt"]
        (fun f => if f = "sub/b.txt" then .error "boom" else .ok ())).failed.map Prod.fst := by
  have h := batch_accounting ["a.txt", "sub/b.txt", "c.txt"]
    (fun f => if f = "sub/b.txt" then .error "boom" else .ok ())
  refine ⟨h.1, ?_⟩
  by_contra hmem
  have hok := (h.2.2.2.2 "sub/b.txt" (by simp)).mpr hmem
  simp [Except.isOk, Except.toBool] at hok

end PyTime
